import Mathlib

/-!
Verification of the buzz file-transcription pipeline.

Shallow embedding of:
  * `buzz/transcriber/file_transcriber.py` — `FileTranscriber.run`,
    `write_output`, `to_timestamp`;
  * `buzz/db/helpers.py` — `copy_transcriptions_from_json_to_sqlite`,
    `mark_in_progress_and_queued_transcriptions_as_canceled`.

Times are milliseconds, modelled as `Nat` (the pipeline only produces
non-negative offsets).  External effects (the download service, the
decoder subprocess, the transcription engine) are modelled as inputs in
an environment record; the observable behaviour of a run is the ordered
trace of emitted signals, file writes and uncaught exceptions.
-/

namespace Buzz

/-- One timed span of transcribed speech (`Segment` in
`buzz/transcriber/transcriber.py`): `start`/`end` in milliseconds and the
transcribed `text`. -/
structure Segment where
  start : Nat
  stop : Nat
  text : String
  deriving DecidableEq, Repr

/-- The output formats of `write_output` (`OutputFormat` enum). -/
inductive OutputFormat where
  | TXT
  | VTT
  | SRT
  deriving DecidableEq, Repr

/-- Python `f"{n:02d}"` for a non-negative `n`: zero-pad to at least two
digits. -/
def pad2 (n : Nat) : String :=
  if n < 10 then "0" ++ toString n else toString n

/-- Python `f"{n:03d}"` for a non-negative `n`: zero-pad to at least three
digits. -/
def pad3 (n : Nat) : String :=
  if n < 10 then "00" ++ toString n
  else if n < 100 then "0" ++ toString n
  else toString n

/-- `to_timestamp(ms, ms_separator)` from `file_transcriber.py`: the
successive subtractions of the source, producing
`HH:MM:SS{separator}mmm`. -/
def to_timestamp (ms : Nat) (ms_separator : String) : String :=
  let hr := ms / (1000 * 60 * 60)
  let ms := ms - hr * (1000 * 60 * 60)
  let mins := ms / (1000 * 60)
  let ms := ms - mins * (1000 * 60)
  let sec := ms / 1000
  let ms := ms - sec * 1000
  pad2 hr ++ ":" ++ pad2 mins ++ ":" ++ pad2 sec ++ ms_separator ++ pad3 ms

/-- Whitespace as recognised by Python's `str.strip()` (the ASCII cases;
the pipeline's texts contain no exotic unicode whitespace). -/
def pyIsSpace (c : Char) : Bool :=
  c == ' ' || c == '\t' || c == '\n' || c == '\r' || c == '\x0b' || c == '\x0c'

/-- Python's `str.strip()`: remove leading and trailing whitespace. -/
def strip (s : String) : String :=
  ⟨((s.data.dropWhile pyIsSpace).reverse.dropWhile pyIsSpace).reverse⟩

/-- The TXT loop of `write_output`: accumulates `combined_text`, carrying
`previous_end_time`; inserts a paragraph break before a segment whose
start is at least 2000 ms after the previous segment's end, and appends
each (stripped) segment text followed by one space. -/
def txtCombine : List Segment → Option Nat → String → String
  | [], _, combined_text => combined_text
  | segment :: rest, previous_end_time, combined_text =>
    let current_text := strip segment.text
    let combined_text :=
      match previous_end_time with
      | some p => if 2000 ≤ segment.start - p then combined_text ++ "\n\n" else combined_text
      | none => combined_text
    txtCombine rest (some segment.stop) (combined_text ++ current_text ++ " ")

/-- The VTT loop of `write_output`: per segment, one `file.write` with the
timestamp line and one with the stripped text followed by a blank line. -/
def vttCalls : List Segment → List String
  | [] => []
  | segment :: rest =>
    (to_timestamp segment.start "." ++ " --> " ++ to_timestamp segment.stop "." ++ "\n")
      :: (strip segment.text ++ "\n\n")
      :: vttCalls rest

/-- The SRT loop of `write_output`: `enumerate(segments)` starting the
counter at `i`; per segment, writes the 1-based index, the timestamp line
with `,` separator, and the stripped text followed by a blank line. -/
def srtCalls : Nat → List Segment → List String
  | _, [] => []
  | i, segment :: rest =>
    (toString (i + 1) ++ "\n")
      :: (to_timestamp segment.start "," ++ " --> " ++ to_timestamp segment.stop "," ++ "\n")
      :: (strip segment.text ++ "\n\n")
      :: srtCalls (i + 1) rest

/-- The sequence of `file.write` calls `write_output` performs for one
format. -/
def writeCalls (segments : List Segment) : OutputFormat → List String
  | .TXT => [strip (txtCombine segments none "")]
  | .VTT => "WEBVTT\n\n" :: vttCalls segments
  | .SRT => srtCalls 0 segments

/-- `write_output(path, segments, output_format)`: the full file content
written at `path` (the concatenation of the write calls). -/
def write_output (segments : List Segment) (output_format : OutputFormat) : String :=
  String.join (writeCalls segments output_format)

/-- The `source` field of a task (`FileTranscriptionTask.Source`). -/
inductive Source where
  | LOCAL_FILE
  | URL_IMPORT
  | FOLDER_WATCH
  deriving DecidableEq, Repr

/-- Outcomes of the external steps `FileTranscriber.run` performs, plus
the task fields it reads.  `titleFetch` is the result of
`ydl_info.extract_info` (`ok` carries the optional `'title'` entry of the
returned dictionary, `error` any raised exception); `download` is the
result of `ydl_download.download` (`error` carries the exception's
message); `decoderStderr` is the decoded error stream of the `ffmpeg`
subprocess; `transcribeResult` is the result of `self.transcribe()`. -/
structure RunEnv where
  source : Source
  url : String
  title : String
  titleFetch : Except String (Option String)
  download : Except String Unit
  decoderStderr : String
  transcribeResult : Except String (List Segment)
  output_formats : List OutputFormat
  deriving Repr

/-- The externally observable actions of one `run`, in program order:
signal emissions, output-file writes (recorded with the written content),
and an exception escaping `run` uncaught. -/
inductive Action where
  | emittedError (msg : String)
  | emittedCompleted (segments : List Segment)
  | wroteFile (fmt : OutputFormat) (content : String)
  | raised (msg : String)
  deriving DecidableEq, Repr

/-- Result of one `run`: the action trace and the task's final `title`. -/
structure RunOutcome where
  trace : List Action
  title : String
  deriving DecidableEq, Repr

/-- `segment.text = segment.text.strip()`, applied to every segment
after a successful `transcribe()`. -/
def normalizeSegment (segment : Segment) : Segment :=
  { segment with text := strip segment.text }

/-- The tail of `run` common to all sources: the `try: transcribe()`
block, the normalization loop, the `completed` emission and the
per-format `write_output` calls.  (The FOLDER_WATCH move and the
URL_IMPORT temp-file cleanup that follow emit nothing and, for the
cleanup, swallow their errors.) -/
def transcribeAndWrite (env : RunEnv) : List Action :=
  match env.transcribeResult with
  | .error msg => [.emittedError msg]
  | .ok segments =>
    let segments := segments.map normalizeSegment
    .emittedCompleted segments
      :: env.output_formats.map fun fmt =>
           .wroteFile fmt (write_output segments fmt)

/-- `FileTranscriber.run`.  For URL_IMPORT: title fetch (every exception
caught, falling back to the raw URL; a missing `'title'` key also falls
back to the URL), then download (an exception emits `error` and
returns), then the decode step (a non-empty decoder error stream raises
an uncaught exception), then the common transcribe/write tail.  Other
sources go straight to the tail. -/
def run (env : RunEnv) : RunOutcome :=
  if env.source = .URL_IMPORT then
    let title :=
      match env.titleFetch with
      | .ok (some t) => t
      | .ok none => env.url
      | .error _ => env.url
    match env.download with
    | .error msg => { trace := [.emittedError msg], title := title }
    | .ok _ =>
      if env.decoderStderr ≠ "" then
        { trace := [.raised ("Error processing downloaded audio: " ++ env.decoderStderr)],
          title := title }
      else
        { trace := transcribeAndWrite env, title := title }
  else
    { trace := transcribeAndWrite env, title := env.title }

/-- Did `ydl_download.download` succeed in this environment? -/
def downloadOk (env : RunEnv) : Bool :=
  match env.download with
  | .ok _ => true
  | .error _ => false

/-- The decode step runs (URL_IMPORT, download succeeded) and fails
(non-empty decoder error stream). -/
def decodeFails (env : RunEnv) : Bool :=
  env.source == .URL_IMPORT && downloadOk env && env.decoderStderr != ""

/-- All steps before `transcribe()` succeed, so the run reaches the
transcription step. -/
def preTranscriptionOk (env : RunEnv) : Prop :=
  env.source = .URL_IMPORT → env.download = .ok () ∧ env.decoderStderr = ""

/-- Terminal events of the signal contract: `completed` or `error`. -/
def isTerminalEvent : Action → Bool
  | .emittedError _ => true
  | .emittedCompleted _ => true
  | _ => false

/-- `error` emissions in a trace. -/
def isErrorEvent : Action → Bool
  | .emittedError _ => true
  | _ => false

/-- `completed` emissions in a trace. -/
def isCompletedEvent : Action → Bool
  | .emittedCompleted _ => true
  | _ => false

/-- Output-file writes in a trace. -/
def isFileWrite : Action → Bool
  | .wroteFile _ _ => true
  | _ => false

/-- Number of terminal events (`completed` or `error`) in a trace. -/
def terminalEventCount (trace : List Action) : Nat :=
  (trace.filter isTerminalEvent).length

/-- A row of the `transcription` table.  Only the columns the verified
claims read are represented: the primary key `id` (conflict target of
the migration's `ON CONFLICT(id) DO NOTHING`), `status` and
`time_ended`.  Status values are the database's string encodings
(`'queued'`, `'in_progress'`, `'completed'`, `'failed'`,
`'canceled'`). -/
structure TranscriptionRow where
  id : String
  status : String
  time_ended : String
  deriving DecidableEq, Repr

/-- A row of the `transcription_segment` table. -/
structure TranscriptionSegmentRow where
  end_time : Nat
  start_time : Nat
  text : String
  translation : String
  transcription_id : String
  deriving DecidableEq, Repr

/-- The two tables the db helpers touch. -/
structure DB where
  transcription : List TranscriptionRow
  transcription_segment : List TranscriptionSegmentRow
  deriving DecidableEq, Repr

/-- A segment of a cached (JSON) task, as read by the migration. -/
structure CacheSegment where
  start : Nat
  stop : Nat
  text : String
  translation : String
  deriving DecidableEq, Repr

/-- A task loaded from the old JSON cache, restricted to the fields the
migration writes into the modelled columns: `uid` (the inserted `id`),
`status` (`task.status.value`), `completed_at` (inserted as
`time_ended`) and the segment list. -/
structure CachedTask where
  uid : String
  status : String
  completed_at : String
  segments : List CacheSegment
  deriving DecidableEq, Repr

/-- The body of the migration loop for one task:
`INSERT INTO transcription ... ON CONFLICT(id) DO NOTHING` followed, when
`cursor.rowcount > 0` (the insert actually took effect), by one
`INSERT INTO transcription_segment` per segment of the task. -/
def insertTask (db : DB) (task : CachedTask) : DB :=
  if db.transcription.any fun r => r.id == task.uid then
    db
  else
    { transcription :=
        db.transcription ++
          [{ id := task.uid, status := task.status, time_ended := task.completed_at }],
      transcription_segment :=
        db.transcription_segment ++
          task.segments.map fun segment =>
            { end_time := segment.stop,
              start_time := segment.start,
              text := segment.text,
              translation := segment.translation,
              transcription_id := task.uid } }

/-- `copy_transcriptions_from_json_to_sqlite`: the per-task loop over the
cached tasks.  (The surrounding cache-file existence check and the
cache-file deletions after the loop do not touch the database.) -/
def copy_transcriptions_from_json_to_sqlite (db : DB) (tasks : List CachedTask) : DB :=
  tasks.foldl insertTask db

/-- `mark_in_progress_and_queued_transcriptions_as_canceled`:
`UPDATE transcription SET status = 'canceled', time_ended = ?
WHERE status = 'in_progress' OR status = 'queued'`, with `?` bound to
`datetime.now().isoformat()` (the `now` argument here). -/
def mark_in_progress_and_queued_transcriptions_as_canceled
    (db : DB) (now : String) : DB :=
  { db with
    transcription :=
      db.transcription.map fun r =>
        if r.status == "in_progress" || r.status == "queued" then
          { r with status := "canceled", time_ended := now }
        else
          r }

/-! ## Helper lemmas -/

theorem join_nil : String.join [] = "" := rfl

theorem join_cons (a : String) (l : List String) :
    String.join (a :: l) = a ++ String.join l := by
  have go : ∀ (l : List String) (s : String),
      List.foldl (fun r s => r ++ s) s l = s ++ List.foldl (fun r s => r ++ s) "" l := by
    intro l
    induction l with
    | nil => intro s; simp [String.append_empty]
    | cons x xs ih =>
      intro s
      simp only [List.foldl_cons]
      rw [ih (s ++ x), ih ("" ++ x), String.empty_append, String.append_assoc]
  show List.foldl (fun r s => r ++ s) "" (a :: l) = _
  simp only [List.foldl_cons]
  rw [go l ("" ++ a), String.empty_append]
  rfl

/-- One VTT cue block: the two `file.write` calls for one segment. -/
def vttCue (segment : Segment) : String :=
  (to_timestamp segment.start "." ++ " --> " ++ to_timestamp segment.stop "." ++ "\n")
    ++ (strip segment.text ++ "\n\n")

theorem join_vttCalls (segments : List Segment) :
    String.join (vttCalls segments) = String.join (segments.map vttCue) := by
  induction segments with
  | nil => rfl
  | cons s rest ih =>
    simp only [vttCalls, List.map_cons, join_cons, ih, vttCue, String.append_assoc]

/-- One SRT block for printed index `i`: the three `file.write` calls for
one segment. -/
def srtBlock (i : Nat) (segment : Segment) : String :=
  (toString i ++ "\n")
    ++ (to_timestamp segment.start "," ++ " --> " ++ to_timestamp segment.stop "," ++ "\n")
    ++ (strip segment.text ++ "\n\n")

theorem join_srtCalls (segments : List Segment) (n : Nat) :
    String.join (srtCalls n segments) =
      String.join ((segments.enumFrom n).map fun p => srtBlock (p.1 + 1) p.2) := by
  induction segments generalizing n with
  | nil => rfl
  | cons s rest ih =>
    simp only [srtCalls, List.enumFrom_cons, List.map_cons, join_cons, ih, srtBlock,
      String.append_assoc]

/-! ## Claim theorems: output writer -/

/-- C5: the timestamp formatter is a pure total function taking a
millisecond offset and a separator to the zero-padded
`HH:MM:SS{separator}mmm` string; in particular
`to_timestamp 3723045 "."` is `"01:02:03.045"` and
`to_timestamp 0 ","` is `"00:00:00,000"`. -/
theorem to_timestamp_spec :
    (∀ (ms : Nat) (sep : String),
        to_timestamp ms sep =
          pad2 (ms / 3600000) ++ ":" ++ pad2 (ms % 3600000 / 60000) ++ ":" ++
            pad2 (ms % 60000 / 1000) ++ sep ++ pad3 (ms % 1000)) ∧
    to_timestamp 3723045 "." = "01:02:03.045" ∧
    to_timestamp 0 "," = "00:00:00,000" := by
  refine ⟨fun ms sep => ?_, by decide, by decide⟩
  simp only [to_timestamp]
  have h1 : ms - ms / (1000 * 60 * 60) * (1000 * 60 * 60) = ms % 3600000 := by omega
  rw [h1]
  have h2 : ms % 3600000 - ms % 3600000 / (1000 * 60) * (1000 * 60) = ms % 60000 := by omega
  rw [h2]
  have h3 : ms % 60000 - ms % 60000 / 1000 * 1000 = ms % 1000 := by omega
  rw [h3]

/-- C3 (counterexample): for segments `[{0,1000,"A"},{3500,4000,"B"}]`
(gap 2500 ≥ 2000) the TXT content is `"A \n\nB"` — the space that was
appended after `"A"` survives in front of the paragraph break — and not
the claimed `"A\n\nB"`. -/
theorem write_output_txt_counterexample :
    write_output [⟨0, 1000, "A"⟩, ⟨3500, 4000, "B"⟩] .TXT = "A \n\nB" ∧
    write_output [⟨0, 1000, "A"⟩, ⟨3500, 4000, "B"⟩] .TXT ≠ "A\n\nB" := by
  decide

theorem txtCombine_closed (rest : List Segment) (prev : Segment) (acc : String) :
    txtCombine rest (some prev.stop) acc =
      acc ++ String.join (((prev :: rest).zip rest).map fun p =>
        (if 2000 ≤ p.2.start - p.1.stop then "\n\n" else "") ++ strip p.2.text ++ " ") := by
  induction rest generalizing prev acc with
  | nil => simp [txtCombine, join_nil, String.append_empty]
  | cons cur rest' ih =>
    simp only [txtCombine]
    rw [ih cur]
    simp only [List.zip_cons_cons, List.map_cons, join_cons]
    by_cases h : 2000 ≤ cur.start - prev.stop <;>
      simp [h, String.append_assoc, String.empty_append]

/-- C3 (amended): for every segment list, TXT concatenates the stripped
segment texts, each followed by one space, inserting `"\n\n"` between
the space and the next text exactly when, at that adjacent pair, the gap
between the previous segment's end and the next segment's start is
≥ 2000 ms; the final content is stripped of surrounding whitespace and
contains no timestamps (it is built from the texts, spaces and breaks
alone).  Segments `[{0,1000,"A"},{3500,4000,"B"}]` yield `"A \n\nB"`,
`[{0,1000,"A"},{1500,2000,"B"}]` yield `"A B"`, and a three-segment list
with gaps 2500 and 100 yields `"A \n\nB C"`. -/
theorem write_output_txt_spec :
    write_output [] .TXT = "" ∧
    (∀ (s0 : Segment) (rest : List Segment),
        write_output (s0 :: rest) .TXT =
          strip (strip s0.text ++ " " ++
            String.join (((s0 :: rest).zip rest).map fun p =>
              (if 2000 ≤ p.2.start - p.1.stop then "\n\n" else "") ++
                strip p.2.text ++ " "))) ∧
    write_output [⟨0, 1000, "A"⟩, ⟨3500, 4000, "B"⟩] .TXT = "A \n\nB" ∧
    write_output [⟨0, 1000, "A"⟩, ⟨1500, 2000, "B"⟩] .TXT = "A B" ∧
    write_output [⟨0, 1000, "A"⟩, ⟨3500, 4000, "B"⟩, ⟨4100, 5000, "C"⟩] .TXT =
      "A \n\nB C" := by
  refine ⟨by decide, fun s0 rest => ?_, by decide, by decide, by decide⟩
  simp only [write_output, writeCalls, join_cons, join_nil, String.append_empty]
  simp only [txtCombine]
  rw [txtCombine_closed]
  simp [String.empty_append, String.append_assoc]

/-- C6: for every segment list (the empty one included), the VTT content
is exactly the header `"WEBVTT\n\n"` followed by one cue block per
segment in order: the `start --> end` line with `.` as millisecond
separator, then the segment text and a blank line. -/
theorem write_output_vtt_spec :
    (∀ segments : List Segment,
        write_output segments .VTT = "WEBVTT\n\n" ++ String.join (segments.map vttCue)) ∧
    write_output [] .VTT = "WEBVTT\n\n" := by
  refine ⟨fun segments => ?_, by decide⟩
  simp only [write_output, writeCalls, join_cons, join_vttCalls]

/-- C7: for every segment list of length N, the SRT content is exactly N
blocks in segment order, the i-th carrying the 1-based index i, the
timestamp line with `,` as millisecond separator, the segment text and a
blank line. -/
theorem write_output_srt_spec :
    (∀ segments : List Segment,
        write_output segments .SRT =
          String.join (segments.enum.map fun p => srtBlock (p.1 + 1) p.2)) ∧
    (∀ segments : List Segment,
        (segments.enum.map fun p => srtBlock (p.1 + 1) p.2).length = segments.length) := by
  constructor
  · intro segments
    simp only [write_output, writeCalls, List.enum_eq_enumFrom, join_srtCalls]
  · intro segments
    simp [List.enum_eq_enumFrom]

/-! ## Claim theorems: the run state machine -/

theorem filter_terminal_writes (fmts : List OutputFormat) (f : OutputFormat → String) :
    (fmts.map fun fmt => Action.wroteFile fmt (f fmt)).filter isTerminalEvent = [] := by
  induction fmts with
  | nil => rfl
  | cons a l ih => simp [List.filter_cons, isTerminalEvent, ih]

theorem terminalEventCount_transcribeAndWrite (env : RunEnv) :
    terminalEventCount (transcribeAndWrite env) = 1 := by
  unfold transcribeAndWrite
  cases env.transcribeResult with
  | error msg => rfl
  | ok segments =>
    simp [terminalEventCount, List.filter_cons, isTerminalEvent, filter_terminal_writes]

/-- Environment of C1's counterexample: a URL import whose download
succeeds and whose decoder writes `"boom"` on its error stream. -/
def envC1 : RunEnv :=
  { source := .URL_IMPORT, url := "https://example.com/a", title := "",
    titleFetch := .ok (some "Title"), download := .ok (),
    decoderStderr := "boom", transcribeResult := .ok [],
    output_formats := [.TXT] }

/-- C1 (counterexample): on a run whose decode step fails, no terminal
event at all is emitted — the run ends with an uncaught exception — so
"exactly one terminal event per run" is false. -/
theorem run_terminal_counterexample :
    terminalEventCount (run envC1).trace ≠ 1 ∧
    terminalEventCount (run envC1).trace = 0 ∧
    (run envC1).trace = [.raised "Error processing downloaded audio: boom"] := by
  decide

/-- C1 (amended): every run emits exactly one terminal event — either
`completed` or `error`, never both — except a run whose decode step fails
(URL import, download succeeded, non-empty decoder error stream), which
emits no terminal event and instead lets the decode exception escape
`run` uncaught. -/
theorem run_terminal_event_count (env : RunEnv) :
    terminalEventCount (run env).trace = if decodeFails env then 0 else 1 := by
  obtain ⟨src, url, title, tf, dl, stderr, tr, fmts⟩ := env
  cases src
  case LOCAL_FILE =>
    simpa [run, decodeFails] using
      terminalEventCount_transcribeAndWrite
        ⟨.LOCAL_FILE, url, title, tf, dl, stderr, tr, fmts⟩
  case FOLDER_WATCH =>
    simpa [run, decodeFails] using
      terminalEventCount_transcribeAndWrite
        ⟨.FOLDER_WATCH, url, title, tf, dl, stderr, tr, fmts⟩
  case URL_IMPORT =>
    cases dl with
    | error msg =>
      simp [run, decodeFails, downloadOk, terminalEventCount, isTerminalEvent]
    | ok u =>
      by_cases hstderr : stderr = ""
      · subst hstderr
        simpa [run, decodeFails, downloadOk] using
          terminalEventCount_transcribeAndWrite
            ⟨.URL_IMPORT, url, title, tf, .ok u, "", tr, fmts⟩
      · simp [run, decodeFails, downloadOk, hstderr, terminalEventCount, isTerminalEvent]

/-- Environment of C2's counterexample: a URL import with a failing
decode step. -/
def envC2cx : RunEnv :=
  { source := .URL_IMPORT, url := "https://example.com/b", title := "",
    titleFetch := .error "no title", download := .ok (),
    decoderStderr := "decode error", transcribeResult := .ok [⟨0, 1, "x"⟩],
    output_formats := [.SRT] }

/-- C2 (counterexample): the decode step fails (non-empty decoder error
stream) yet the run emits no `error` event — the claim that every
task-fatal failure emits a single error event is false for decode
failures. -/
theorem run_decode_failure_counterexample :
    decodeFails envC2cx = true ∧
    (run envC2cx).trace.filter isErrorEvent = [] := by
  decide

/-- C2 (amended): a download failure and a transcription failure each
halt the run with exactly one `error` emission carrying the failure's
message and nothing else (no completed event, no file writes); a decode
failure (non-empty decoder error stream) also halts the run before any
completed event or file write, but emits nothing at all — the decode
exception escapes `run` uncaught, carrying the decoder's message. -/
theorem run_failure_halts (env : RunEnv) :
    (∀ msg, env.source = .URL_IMPORT → env.download = .error msg →
        (run env).trace = [.emittedError msg]) ∧
    (decodeFails env = true →
        (run env).trace =
          [.raised ("Error processing downloaded audio: " ++ env.decoderStderr)]) ∧
    (∀ msg, env.transcribeResult = .error msg → preTranscriptionOk env →
        (run env).trace = [.emittedError msg]) ∧
    (∀ msg, env.source = .URL_IMPORT → env.download = .error msg →
        (run env).trace.filter isCompletedEvent = [] ∧
        (run env).trace.filter isFileWrite = []) ∧
    (decodeFails env = true →
        (run env).trace.filter isCompletedEvent = [] ∧
        (run env).trace.filter isFileWrite = []) := by
  obtain ⟨src, url, title, tf, dl, stderr, tr, fmts⟩ := env
  refine ⟨?_, ?_, ?_, ?_, ?_⟩
  · intro msg hs hd
    cases src <;> simp_all [run]
  · intro hdec
    cases src <;> cases dl <;>
      simp_all [run, decodeFails, downloadOk]
  · intro msg htr hpre
    cases src
    case URL_IMPORT =>
      obtain ⟨hdl, hstderr⟩ := hpre rfl
      simp_all [run, transcribeAndWrite]
    all_goals simp_all [run, transcribeAndWrite]
  · intro msg hs hd
    cases src <;> simp_all [run, isCompletedEvent, isFileWrite]
  · intro hdec
    cases src <;> cases dl <;>
      simp_all [run, decodeFails, downloadOk, isCompletedEvent, isFileWrite]

/-- Environment of C2's witness, download-failure case. -/
def envC2dl : RunEnv :=
  { source := .URL_IMPORT, url := "https://example.com/c", title := "",
    titleFetch := .ok (some "T"), download := .error "404 not found",
    decoderStderr := "", transcribeResult := .ok [],
    output_formats := [.TXT] }

/-- Environment of C2's witness, decode-failure case. -/
def envC2dec : RunEnv :=
  { source := .URL_IMPORT, url := "https://example.com/d", title := "",
    titleFetch := .ok none, download := .ok (),
    decoderStderr := "bad stream", transcribeResult := .ok [],
    output_formats := [.VTT] }

/-- Environment of C2's witness, transcription-failure case. -/
def envC2tr : RunEnv :=
  { source := .LOCAL_FILE, url := "", title := "a.mp3",
    titleFetch := .ok none, download := .ok (),
    decoderStderr := "", transcribeResult := .error "engine failed",
    output_formats := [.SRT] }

theorem run_failure_halts_witness :
    (run envC2dl).trace = [.emittedError "404 not found"] ∧
    (run envC2dec).trace =
      [.raised ("Error processing downloaded audio: " ++ envC2dec.decoderStderr)] ∧
    (run envC2tr).trace = [.emittedError "engine failed"] ∧
    (run envC2dl).trace.filter isCompletedEvent = [] ∧
    (run envC2dec).trace.filter isFileWrite = [] :=
  ⟨(run_failure_halts envC2dl).1 "404 not found" rfl rfl,
   (run_failure_halts envC2dec).2.1 (by decide),
   (run_failure_halts envC2tr).2.2.1 "engine failed" rfl
     (fun h => absurd h (by decide)),
   ((run_failure_halts envC2dl).2.2.2.1 "404 not found" rfl rfl).1,
   ((run_failure_halts envC2dec).2.2.2.2 (by decide)).2⟩

/-- C4: in every run reaching a successful transcription, the trace is
exactly the `completed` emission carrying the normalized segments (every
text stripped of surrounding whitespace) followed by the per-format file
writes — normalization precedes the emission, and the emission strictly
precedes every write. -/
theorem run_completed_before_writes (env : RunEnv) (segments : List Segment)
    (htr : env.transcribeResult = .ok segments) (hpre : preTranscriptionOk env) :
    (run env).trace =
      .emittedCompleted (segments.map normalizeSegment)
        :: env.output_formats.map fun fmt =>
             .wroteFile fmt (write_output (segments.map normalizeSegment) fmt) := by
  obtain ⟨src, url, title, tf, dl, stderr, tr, fmts⟩ := env
  cases src
  case URL_IMPORT =>
    obtain ⟨hdl, hstderr⟩ := hpre rfl
    simp_all [run, transcribeAndWrite]
  all_goals simp_all [run, transcribeAndWrite]

/-- Environment of C4's witness: a local file whose transcription yields
one segment with untrimmed text. -/
def envC4 : RunEnv :=
  { source := .LOCAL_FILE, url := "", title := "a.mp3",
    titleFetch := .ok none, download := .ok (),
    decoderStderr := "", transcribeResult := .ok [⟨0, 1000, " A "⟩],
    output_formats := [.TXT, .VTT] }

theorem run_completed_before_writes_witness :
    (run envC4).trace =
      .emittedCompleted [⟨0, 1000, "A"⟩]
        :: [.wroteFile .TXT "A",
            .wroteFile .VTT "WEBVTT\n\n00:00:00.000 --> 00:00:01.000\nA\n\n"] :=
  (run_completed_before_writes envC4 [⟨0, 1000, " A "⟩] rfl
      (fun h => absurd h (by decide))).trans (by decide)

/-- C8: on a URL import whose metadata (title) fetch raises, the task is
not aborted: the title falls back to the raw URL string and the rest of
the run — starting with the download step — proceeds exactly as it would
have with a successful fetch. -/
theorem run_title_fallback (env : RunEnv) (e : String)
    (hs : env.source = .URL_IMPORT) (hf : env.titleFetch = .error e) :
    (run env).title = env.url ∧
    (run env).trace = (run { env with titleFetch := .ok (some env.url) }).trace := by
  obtain ⟨src, url, title, tf, dl, stderr, tr, fmts⟩ := env
  cases src <;> cases dl <;> cases tr <;>
    simp_all [run, transcribeAndWrite] <;> split <;> rfl

/-- Environment of C8's witness: title fetch fails, then the download
fails, so the run still reaches (and reports) the download error. -/
def envC8 : RunEnv :=
  { source := .URL_IMPORT, url := "https://example.com/v", title := "",
    titleFetch := .error "no metadata", download := .error "dl failed",
    decoderStderr := "", transcribeResult := .ok [],
    output_formats := [] }

theorem run_title_fallback_witness :
    (run envC8).title = envC8.url ∧
    (run envC8).trace = (run { envC8 with titleFetch := .ok (some envC8.url) }).trace :=
  run_title_fallback envC8 "no metadata" rfl rfl

/-! ## Claim theorems: db helpers -/

/-- C9: the migration's write-back is idempotent in the task identifier:
starting from a database with no row for the identifier, inserting the
task twice leaves the database exactly as inserting it once — in
particular exactly one transcription row carries the identifier, and the
segment rows are not duplicated (they are only inserted when the
transcription insert actually took effect). -/
theorem copy_transcriptions_idempotent (db : DB) (task : CachedTask)
    (h : ∀ r ∈ db.transcription, r.id ≠ task.uid) :
    copy_transcriptions_from_json_to_sqlite db [task, task] =
      copy_transcriptions_from_json_to_sqlite db [task] ∧
    ((copy_transcriptions_from_json_to_sqlite db [task]).transcription.filter
        fun r => r.id == task.uid).length = 1 ∧
    (copy_transcriptions_from_json_to_sqlite db [task, task]).transcription_segment =
      (copy_transcriptions_from_json_to_sqlite db [task]).transcription_segment := by
  have hany : (db.transcription.any fun r => r.id == task.uid) = false := by
    simp only [List.any_eq_false, beq_iff_eq]
    exact h
  have h1 : insertTask db task =
      { transcription :=
          db.transcription ++
            [{ id := task.uid, status := task.status, time_ended := task.completed_at }],
        transcription_segment :=
          db.transcription_segment ++
            task.segments.map fun segment =>
              { end_time := segment.stop,
                start_time := segment.start,
                text := segment.text,
                translation := segment.translation,
                transcription_id := task.uid } } := by
    simp [insertTask, hany]
  have h2 : insertTask (insertTask db task) task = insertTask db task := by
    rw [h1]
    simp [insertTask, List.any_append]
  refine ⟨?_, ?_, ?_⟩
  · show insertTask (insertTask db task) task = insertTask db task
    exact h2
  · show ((insertTask db task).transcription.filter fun r => r.id == task.uid).length = 1
    rw [h1]
    rw [List.filter_append]
    have hnil : (db.transcription.filter fun r => r.id == task.uid) = [] := by
      simp only [List.filter_eq_nil_iff, beq_iff_eq]
      exact h
    simp [hnil]
  · show (insertTask (insertTask db task) task).transcription_segment =
      (insertTask db task).transcription_segment
    rw [h2]

/-- Database and task of C9's witness. -/
def dbC9 : DB := { transcription := [], transcription_segment := [] }

/-- Task of C9's witness. -/
def taskC9 : CachedTask :=
  { uid := "t-1", status := "completed",
    completed_at := "2024-01-01T00:00:00", segments := [⟨0, 1000, "hello", ""⟩] }

theorem copy_transcriptions_idempotent_witness :
    copy_transcriptions_from_json_to_sqlite dbC9 [taskC9, taskC9] =
      copy_transcriptions_from_json_to_sqlite dbC9 [taskC9] ∧
    ((copy_transcriptions_from_json_to_sqlite dbC9 [taskC9]).transcription.filter
        fun r => r.id == taskC9.uid).length = 1 ∧
    (copy_transcriptions_from_json_to_sqlite dbC9 [taskC9, taskC9]).transcription_segment =
      (copy_transcriptions_from_json_to_sqlite dbC9 [taskC9]).transcription_segment :=
  copy_transcriptions_idempotent dbC9 taskC9 (by decide)

/-- C10: after the crash-recovery update runs with the (non-empty)
timestamp `now`, every transcription row whose status was
`'in_progress'` or `'queued'` has status `'canceled'` and a non-empty
`time_ended`, and every row in any other status is unchanged. -/
theorem mark_canceled_spec (db : DB) (now : String) (hnow : now ≠ "")
    (i : Nat) (r : TranscriptionRow)
    (hr : db.transcription[i]? = some r) :
    ∃ r',
      (mark_in_progress_and_queued_transcriptions_as_canceled db now).transcription[i]? =
        some r' ∧
      ((r.status = "in_progress" ∨ r.status = "queued") →
          r'.status = "canceled" ∧ r'.time_ended ≠ "") ∧
      (r.status ≠ "in_progress" ∧ r.status ≠ "queued" → r' = r) := by
  refine ⟨if r.status == "in_progress" || r.status == "queued" then
            { r with status := "canceled", time_ended := now }
          else r, ?_, ?_, ?_⟩
  · simp [mark_in_progress_and_queued_transcriptions_as_canceled, List.getElem?_map, hr]
  · intro hcase
    have hb : (r.status == "in_progress" || r.status == "queued") = true := by
      rcases hcase with h1 | h1 <;> simp [h1]
    simp [hb, hnow]
  · rintro ⟨h1, h2⟩
    have hb : (r.status == "in_progress" || r.status == "queued") = false := by
      simp [h1, h2]
    simp [hb]

/-- First row of C10's witness database: left in progress by a crash. -/
def rowC10 : TranscriptionRow := { id := "t-1", status := "in_progress", time_ended := "" }

/-- Database of C10's witness. -/
def dbC10 : DB :=
  { transcription :=
      [rowC10, { id := "t-2", status := "completed", time_ended := "2024-01-01T01:00:00" }],
    transcription_segment := [] }

theorem mark_canceled_spec_witness :
    ∃ r',
      (mark_in_progress_and_queued_transcriptions_as_canceled dbC10
          "2024-02-02T00:00:00").transcription[0]? = some r' ∧
      ((rowC10.status = "in_progress" ∨ rowC10.status = "queued") →
          r'.status = "canceled" ∧ r'.time_ended ≠ "") ∧
      (rowC10.status ≠ "in_progress" ∧ rowC10.status ≠ "queued" → r' = rowC10) :=
  mark_canceled_spec dbC10 "2024-02-02T00:00:00" (by decide) 0 rowC10 rfl

end Buzz
